import Mathlib

/-!
Shallow embedding of the Speckle automation scripts
(`7autobackup.py`, `8autobacknewversion.py`, `5-exportJSON-GQL2.py`,
`6-subscription.py`, `03_add_properties.py`) and proofs about the
spec claims for them.

Python values are modelled by the inductive `PyVal`; dictionaries and
specklepy `Base` objects are association lists; side effects (prints,
GraphQL queries, file writes, connection attempts) are recorded in a
trace of `Action`s; an uncaught Python exception is an `Option String`
component of a result; remote GraphQL responses are a parameter
(`Remote`) of the functions that perform queries.
-/

namespace SpeckleScripts

/-- A Python runtime value as used by these scripts: `None`, booleans,
integers, strings, lists, dicts, and specklepy `Base` objects (which
carry dynamic members). -/
inductive PyVal where
  | none
  | bool (b : Bool)
  | int (n : Int)
  | str (s : String)
  | list (xs : List PyVal)
  | dict (kvs : List (String × PyVal))
  | base (mem : List (String × PyVal))

/-- Python truthiness: `None`, `False`, `0`, `""`, `[]` and `\x7b\x7d` are
falsy; `Base` objects are truthy (no `__len__`/`__bool__` override). -/
def truthy : PyVal → Bool
  | .none => false
  | .bool b => b
  | .int n => n != 0
  | .str s => s ≠ ""
  | .list xs => !xs.isEmpty
  | .dict kvs => !kvs.isEmpty
  | .base _ => true

/-- First binding of a key in an association list (Python dict lookup). -/
def dictGet : List (String × PyVal) → String → Option PyVal
  | [], _ => Option.none
  | (k', v) :: rest, k => if k' = k then some v else dictGet rest k

/-- Python `d[k] = v` / `Base.__setitem__`: replace the value in place if
the key is present, otherwise append the binding. -/
def setKey : List (String × PyVal) → String → PyVal → List (String × PyVal)
  | [], k, v => [(k, v)]
  | (k', v') :: rest, k, v =>
      if k' = k then (k', v) :: rest else (k', v') :: setKey rest k v

/-- Python `a or b`. -/
def pyOr (a b : PyVal) : PyVal := if truthy a then a else b

/-- Python `v == s` for a string literal `s` (`==` across types is `False`). -/
def eqStr (v : PyVal) (s : String) : Bool :=
  match v with
  | .str t => t = s
  | _ => false

/-- Python `v == n` for an int literal `n` (`bool` compares as `0`/`1`;
other types compare unequal). -/
def pyEqInt (v : PyVal) (n : Int) : Bool :=
  match v with
  | .int m => m = n
  | .bool b => (if b then (1 : Int) else 0) = n
  | _ => false

mutual

/-- Python `repr` of a value (string escaping elided; `Base` repr opaque). -/
def pyRepr : PyVal → String
  | .none => "None"
  | .bool true => "True"
  | .bool false => "False"
  | .int n => toString n
  | .str s => "\x27" ++ s ++ "\x27"
  | .list xs => "[" ++ pyReprList xs ++ "]"
  | .dict kvs => "\x7b" ++ pyReprDict kvs ++ "\x7d"
  | .base _ => "<Base>"

/-- `repr` of the elements of a list, comma separated. -/
def pyReprList : List PyVal → String
  | [] => ""
  | [x] => pyRepr x
  | x :: xs => pyRepr x ++ ", " ++ pyReprList xs

/-- `repr` of the bindings of a dict, comma separated. -/
def pyReprDict : List (String × PyVal) → String
  | [] => ""
  | [(k, v)] => "\x27" ++ k ++ "\x27: " ++ pyRepr v
  | (k, v) :: kvs => "\x27" ++ k ++ "\x27: " ++ pyRepr v ++ ", " ++ pyReprDict kvs

end

/-- Python `str(v)`, as used by f-string interpolation. -/
def pyStr : PyVal → String
  | .str s => s
  | v => pyRepr v

/-- Python `.get(k, default)` on a dict. -/
def pyGetD (kvs : List (String × PyVal)) (k : String) (dflt : PyVal) : PyVal :=
  (dictGet kvs k).getD dflt

/-- Calling `.get` on a non-dict value raises `AttributeError`; modelled
as `Except`. -/
def asDict : PyVal → Except String (List (String × PyVal))
  | .dict kvs => .ok kvs
  | _ => .error "AttributeError: object has no attribute get"

/-- Python subscript `v[k]` with a string key: succeeds only on dicts
(`KeyError` when the key is missing, `TypeError` otherwise). -/
def pySubscript (v : PyVal) (k : String) : Except String PyVal :=
  match v with
  | .dict kvs =>
      match dictGet kvs k with
      | some w => .ok w
      | Option.none => .error ("KeyError: " ++ k)
  | _ => .error "TypeError: object is not subscriptable"

/-- Python `k in v` for a string `k`: key test on dicts, `==`-membership
on lists, substring test on strings, `TypeError` otherwise. -/
def pyContains (v : PyVal) (k : String) : Except String Bool :=
  match v with
  | .dict kvs => .ok (dictGet kvs k).isSome
  | .list xs => .ok (xs.any (fun e => eqStr e k))
  | .str s => .ok (decide ((s.splitOn k).length > 1))
  | _ => .error "TypeError: argument is not a container"

/-- An observable side effect performed by a script. -/
inductive Action where
  | print (s : String)
  | query (projectId : String) (objectId : PyVal)
  | mkdirBackups
  | writeFile (name : String) (content : PyVal)
  | connect (authHeader : String)

/-- The sequence of side effects a piece of code performed. -/
abbrev Trace := List Action

/-- Outcome of one remote GraphQL query execution: either a transport or
query exception, or a response dictionary. -/
inductive FetchResult where
  | errored (e : String)
  | ok (result : List (String × PyVal))

/-- The remote server, as seen through `GetObjectData`-style queries:
maps the requested object id to an outcome. -/
abbrev Remote := PyVal → FetchResult

/-- Shared project id constant of the scripts. -/
def PROJECT_ID : String := "128262a20c"

/-- Object id constant of `5-exportJSON-GQL2.py`. -/
def OBJECT_ID : String := "cae9cccc231d4fc7c7331c1c9d15696a"

/-- `result.get("project", \x7b\x7d).get("object", \x7b\x7d).get("data")`:
the chained `.get` calls raise `AttributeError` when an intermediate
value is not a dict. -/
def dataExtract (result : List (String × PyVal)) : Except String PyVal := do
  let project ← asDict (pyGetD result "project" (.dict []))
  let object ← asDict (pyGetD project "object" (.dict []))
  .ok (pyGetD object "data" .none)

/-! ### 7autobackup.py -/

/-- Sanitization of the version message, from
`"".join(c for c in message if c.isalnum() or c in (" ", "_")).rstrip()`
(ASCII alphanumerics; `rstrip` drops trailing whitespace). -/
def clean_msg_of (message : String) : String :=
  let kept := message.toList.filter (fun c => c.isAlphanum || c == ' ' || c == '_')
  String.mk ((kept.reverse.dropWhile (fun c => c.isWhitespace)).reverse)

/-- Python string slice `s[:n]`: the first `n` characters. -/
def strTake (s : String) (n : Nat) : String := String.mk (s.data.take n)

/-- Backup filename of `7autobackup.py`: timestamp, then version id, then
the first 20 characters of the sanitized message. -/
def backupFilename7 (timestamp : String) (version_id : PyVal) (message : String) : String :=
  "backup_" ++ timestamp ++ "_" ++ pyStr version_id ++ "_" ++
    strTake (clean_msg_of message) 20 ++ ".json"

/-- JSON object written by `7autobackup.py`. -/
def backupOutput7 (version_id object_id : PyVal) (timestamp : String) (data : PyVal) : PyVal :=
  .dict [("projectId", .str PROJECT_ID), ("versionId", version_id),
         ("objectId", object_id), ("backupTime", .str timestamp), ("data", data)]

/-- Body of the `try` block of `fetch_and_save_data`: execute the query,
extract the data, skip with a warning when it is falsy, otherwise build
the filename (raising `TypeError` when the message is not a string) and
write the backup file. -/
def fetchAndSaveBody7 (remote : Remote) (version_id object_id message : PyVal)
    (timestamp : String) : Trace × Option String :=
  match remote object_id with
  | .errored e => ([Action.query PROJECT_ID object_id], some e)
  | .ok result =>
    match dataExtract result with
    | .error e => ([Action.query PROJECT_ID object_id], some e)
    | .ok obj_data =>
      if truthy obj_data = false then
        ([Action.query PROJECT_ID object_id,
          Action.print "   ⚠️  No data found for this object."], Option.none)
      else
        match message with
        | .str m =>
          let filename := backupFilename7 timestamp version_id m
          ([Action.query PROJECT_ID object_id,
            Action.mkdirBackups,
            Action.writeFile filename
              (backupOutput7 version_id object_id timestamp obj_data),
            Action.print ("   ✅ Backup saved: " ++ filename)], Option.none)
        | _ => ([Action.query PROJECT_ID object_id],
                some "TypeError: message is not iterable")

/-- Embedding of `fetch_and_save_data` of `7autobackup.py`: the opening
print, then the `try` body, with any exception caught and logged. -/
def fetch_and_save_data (remote : Remote) (version_id object_id message : PyVal)
    (timestamp : String) : Trace :=
  let startP := Action.print ("   ⏳ Starting backup for Object: " ++ pyStr object_id ++ "...")
  match fetchAndSaveBody7 remote version_id object_id message timestamp with
  | (tr, Option.none) => startP :: tr
  | (tr, some e) => startP :: (tr ++ [Action.print ("   ❌ Failed to download data: " ++ e)])

/-- Sixty equals signs, as printed by `7autobackup.py`. -/
def eqLine60 : String := String.mk (List.replicate 60 '=')

/-- Embedding of the body of the subscription loop of `7autobackup.py`
for a single received `result` dictionary.  The second component is an
exception escaping the loop body (it aborts the subscription loop). -/
def handleNotification7 (remote : Remote) (timestamp : String)
    (result : List (String × PyVal)) : Trace × Option String :=
  match asDict (pyGetD result "projectVersionsUpdated" (.dict [])) with
  | .error e => ([], some e)
  | .ok event =>
    let event_type := pyGetD event "type" .none
    let versionV := pyGetD event "version" (.dict [])
    if (eqStr event_type "CREATED" || eqStr event_type "UPDATED") && truthy versionV then
      match asDict versionV with
      | .error e => ([], some e)
      | .ok version =>
        let v_id := pyGetD version "id" .none
        let obj_id := pyGetD version "referencedObject" .none
        let msg := pyGetD version "message" (.str "no_message")
        let hdr : Trace :=
          [Action.print eqLine60,
           Action.print ("📦 New Version Detected! [ID: " ++ pyStr v_id ++ "]"),
           Action.print ("   Message: " ++ pyStr msg),
           Action.print ("   Object ID: " ++ pyStr obj_id)]
        if truthy obj_id then
          (hdr ++ fetch_and_save_data remote v_id obj_id msg timestamp ++
            [Action.print (eqLine60 ++ "\n")], Option.none)
        else
          (hdr ++ [Action.print "   ⚠️  Could not find referencedObject ID in payload.",
                   Action.print (eqLine60 ++ "\n")], Option.none)
    else ([], Option.none)

/-- The subscription loop of `7autobackup.py` over a finite prefix of the
notification stream: an exception escaping one iteration aborts the loop
(it is only caught outside, as a connection error). -/
def runLoop7 (remote : Remote) (timestamp : String) :
    List (List (String × PyVal)) → Trace × Option String
  | [] => ([], Option.none)
  | r :: rest =>
    match handleNotification7 remote timestamp r with
    | (tr, some e) => (tr, some e)
    | (tr, Option.none) =>
      match runLoop7 remote timestamp rest with
      | (tr2, ex2) => (tr ++ tr2, ex2)

/-! ### 8autobacknewversion.py -/

/-- Backup filename of `8autobacknewversion.py`: timestamp and version id
only (the sanitized message is computed but unused). -/
def backupFilename8 (timestamp : String) (version_id : PyVal) : String :=
  "backup_" ++ timestamp ++ "_" ++ pyStr version_id ++ ".json"

/-- JSON object written by `8autobacknewversion.py`. -/
def backupOutput8 (project_id : String) (version_id object_id message : PyVal)
    (timestamp : String) (data : PyVal) : PyVal :=
  .dict [("projectId", .str project_id), ("versionId", version_id),
         ("objectId", object_id), ("message", message),
         ("backupTimestamp", .str timestamp), ("data", data)]

/-- Body of the `try` block of `save_backup`: query, extract, warn-and-skip
on falsy data, otherwise sanitize the message (raising `TypeError` when it
is not a string) and write the backup file. -/
def saveBackupBody8 (remote : Remote) (project_id : String)
    (object_id version_id message : PyVal) (timestamp : String) : Trace × Option String :=
  match remote object_id with
  | .errored e => ([Action.query project_id object_id], some e)
  | .ok result =>
    match dataExtract result with
    | .error e => ([Action.query project_id object_id], some e)
    | .ok data =>
      if truthy data = false then
        ([Action.query project_id object_id,
          Action.print "   ⚠️  No data found for this object."], Option.none)
      else
        match message with
        | .str _ =>
          let filename := backupFilename8 timestamp version_id
          ([Action.query project_id object_id,
            Action.writeFile filename
              (backupOutput8 project_id version_id object_id message timestamp data),
            Action.print ("   ✅ Backup saved successfully: " ++ filename)], Option.none)
        | _ => ([Action.query project_id object_id],
                some "TypeError: message is not iterable")

/-- Embedding of `save_backup` of `8autobacknewversion.py`: the opening
print, then the `try` body, with any exception caught and logged. -/
def save_backup (remote : Remote) (project_id : String)
    (object_id version_id message : PyVal) (timestamp : String) : Trace :=
  let startP := Action.print ("   ⬇️  Starting download for Object: " ++ pyStr object_id ++ "...")
  match saveBackupBody8 remote project_id object_id version_id message timestamp with
  | (tr, Option.none) => startP :: tr
  | (tr, some e) => startP :: (tr ++ [Action.print ("   ❌ Download failed: " ++ e)])

/-- Fifty equals signs, as printed by `8autobacknewversion.py`. -/
def eqLine50 : String := String.mk (List.replicate 50 '=')

/-- Embedding of the body of the subscription loop of
`subscribe_and_backup` for a single received `result` dictionary. -/
def handleNotification8 (remote : Remote) (timestamp : String)
    (result : List (String × PyVal)) : Trace × Option String :=
  let pr0 : Trace := [Action.print eqLine50, Action.print "📦 New Update Received!"]
  let closing : Action := Action.print (eqLine50 ++ "\n")
  let event_data := pyGetD result "projectVersionsUpdated" .none
  if truthy event_data then
    match asDict event_data with
    | .error e => (pr0, some e)
    | .ok ed =>
      let event_type := pyGetD ed "type" .none
      let versionV := pyGetD ed "version" .none
      if truthy versionV && (eqStr event_type "CREATED" || eqStr event_type "UPDATED") then
        match asDict versionV with
        | .error e => (pr0, some e)
        | .ok version =>
          let v_id := pyGetD version "id" .none
          let msg := pyGetD version "message" .none
          let obj_id := pyGetD version "referencedObject" .none
          let hdr : Trace :=
            [Action.print ("   Version ID: " ++ pyStr v_id),
             Action.print ("   Message: " ++ pyStr msg),
             Action.print ("   Ref Object: " ++ pyStr obj_id)]
          if truthy obj_id then
            (pr0 ++ hdr ++ save_backup remote PROJECT_ID obj_id v_id msg timestamp ++
              [closing], Option.none)
          else
            (pr0 ++ hdr ++
              [Action.print "   ⚠️ No referenced object found in update payload.",
               closing], Option.none)
      else (pr0 ++ [closing], Option.none)
  else (pr0 ++ [closing], Option.none)

/-- The subscription loop of `8autobacknewversion.py` over a finite prefix
of the notification stream. -/
def runLoop8 (remote : Remote) (timestamp : String) :
    List (List (String × PyVal)) → Trace × Option String
  | [] => ([], Option.none)
  | r :: rest =>
    match handleNotification8 remote timestamp r with
    | (tr, some e) => (tr, some e)
    | (tr, Option.none) =>
      match runLoop8 remote timestamp rest with
      | (tr2, ex2) => (tr ++ tr2, ex2)

/-! ### 5-exportJSON-GQL2.py -/

/-- JSON object written by `5-exportJSON-GQL2.py`. -/
def exportOutput5 (data : PyVal) : PyVal :=
  .dict [("projectId", .str PROJECT_ID), ("objectId", .str OBJECT_ID), ("data", data)]

/-- The subscript chain `graphql_result["project"]["object"]["data"]` of
`5-exportJSON-GQL2.py`; it raises `KeyError`/`TypeError` on missing or
non-dict intermediates. -/
def extract5 (result : List (String × PyVal)) : Except String PyVal := do
  let p ← pySubscript (.dict result) "project"
  let o ← pySubscript p "object"
  pySubscript o "data"

/-- Embedding of the post-authentication part of `main` of
`5-exportJSON-GQL2.py`: the query attempt is wrapped in `try` (failure
prints and returns), but the subscript chain `extract5` is outside it,
so a `KeyError` or `TypeError` there escapes. -/
def main5 (remote : Remote) : Trace × Option String :=
  match remote (.str OBJECT_ID) with
  | .errored e =>
      ([Action.query PROJECT_ID (.str OBJECT_ID),
        Action.print ("⚠ GraphQL query failed: " ++ e)], Option.none)
  | .ok result =>
    let okP := Action.print "✓ GraphQL query executed successfully"
    match extract5 result with
    | .error e => ([Action.query PROJECT_ID (.str OBJECT_ID), okP], some e)
    | .ok data =>
      ([Action.query PROJECT_ID (.str OBJECT_ID), okP,
        Action.writeFile "object_data.json" (exportOutput5 data),
        Action.print "✓ Saved object data to object_data.json"], Option.none)

/-! ### Startup and token handling -/

/-- The process environment. -/
abbrev Env := String → Option String

/-- Result of `os.environ.get("SPECKLE_TOKEN")`. -/
def envToken (env : Env) : PyVal :=
  match env "SPECKLE_TOKEN" with
  | some s => .str s
  | Option.none => .none

/-- Module-level token check of `7autobackup.py`:
`if not SPECKLE_TOKEN: raise ValueError(...)`. -/
def script7Startup (env : Env) : Except String PyVal :=
  let token := envToken env
  if truthy token = false then
    .error "ValueError: ❌ Please set SPECKLE_TOKEN in your environment variables or .env file."
  else .ok token

/-- Modelled from the spec: `get_client` is defined in `main.py`, which is
not among the sources; per the spec, it reads a bearer token from process
environment configuration and failure to find it is a fatal configuration
error at startup. -/
def get_client (env : Env) : Except String PyVal :=
  let token := envToken env
  if truthy token = false then
    .error "ConfigurationError: missing SPECKLE_TOKEN"
  else .ok token

/-- Startup behaviour of `6-subscription.py`: the module reads the token
without any check and `subscribe_to_project_updates` immediately opens
the WebSocket connection with whatever was read (the literal string
`None` when the variable is unset). -/
def script6Run (env : Env) : Trace :=
  let token := envToken env
  [Action.connect ("Bearer " ++ pyStr token)]

/-- Startup of `03_add_properties.py`: its first statement calls `get_client`. -/
def script03Startup (env : Env) : Except String PyVal := get_client env

/-- Startup of `5-exportJSON-GQL2.py`: its first statement calls `get_client`. -/
def script5Startup (env : Env) : Except String PyVal := get_client env

/-- Startup of `subscribe_and_backup` of `8autobacknewversion.py`: its
first statement calls `get_client` (the module-level `YOUR_TOKEN` read is
unchecked). -/
def script8Startup (env : Env) : Except String PyVal := get_client env

/-! ### 03_add_properties.py -/

/-- Python format `f"Element_..."` index part, zero-padded to width 3. -/
def pad3 (i : Nat) : String :=
  let s := toString i
  if s.length < 3 then String.mk (List.replicate (3 - s.length) '0') ++ s else s

/-- The two unconditional per-element assignments:
`element["element_index"] = i` and the `custom_tag` label. -/
def tagMembers (i : Nat) (mem : List (String × PyVal)) : List (String × PyVal) :=
  setKey (setKey mem "element_index" (.int (i : Int)))
    "custom_tag" (.str ("Element_" ++ pad3 i))

/-- The Module to Designer substitution (lines 76 to 81):
`module = identity.get("Module")`, overwriting `identity["Designer"]` for
modules 1 and 3 and leaving the dictionary untouched otherwise. -/
def substIdentity (kvs : List (String × PyVal)) : List (String × PyVal) :=
  if pyEqInt ((dictGet kvs "Module").getD .none) 1 then
    setKey kvs "Designer" (.str "Giovanni Carlo")
  else if pyEqInt ((dictGet kvs "Module").getD .none) 3 then
    setKey kvs "Designer" (.str "Hala Lahlou")
  else kvs

/-- Where the nested Identity dictionary was found. -/
inductive IdentityLoc where
  | notFound
  | top (kvs : List (String × PyVal))
  | nested (kvs : List (String × PyVal))

/-- The elif branch of the identity lookup: `"BIM" in props and
"Identity" in props["BIM"] and isinstance(props["BIM"]["Identity"], dict)`. -/
def identityLookupBim (props : PyVal) : Except String IdentityLoc := do
  let c2 ← pyContains props "BIM"
  if c2 then
    let bim ← pySubscript props "BIM"
    let c3 ← pyContains bim "Identity"
    if c3 then
      let v ← pySubscript bim "Identity"
      match v with
      | .dict kvs => .ok (IdentityLoc.nested kvs)
      | _ => .ok IdentityLoc.notFound
    else .ok IdentityLoc.notFound
  else .ok IdentityLoc.notFound

/-- The identity lookup (lines 66 to 71): `"Identity" in props and
isinstance(props["Identity"], dict)`, else the BIM path. -/
def identityLookup (props : PyVal) : Except String IdentityLoc := do
  let c1 ← pyContains props "Identity"
  if c1 then
    let v ← pySubscript props "Identity"
    match v with
    | .dict kvs => .ok (IdentityLoc.top kvs)
    | _ => identityLookupBim props
  else identityLookupBim props

/-- Write the substituted identity dictionary back where it was found
(the Python code mutates it in place through aliasing).  The fallback
arms are unreachable: a successful lookup guarantees the shapes match. -/
def updateIdentity (props : PyVal) (loc : IdentityLoc)
    (newKvs : List (String × PyVal)) : PyVal :=
  match loc, props with
  | .top _, .dict pk => .dict (setKey pk "Identity" (.dict newKvs))
  | .nested _, .dict pk =>
      match dictGet pk "BIM" with
      | some (.dict bimKvs) =>
          .dict (setKey pk "BIM" (.dict (setKey bimKvs "Identity" (.dict newKvs))))
      | _ => props
  | _, _ => props

/-- One iteration of the element loop of `03_add_properties.py`: skip
non-`Base` values, tag the element, skip when it has no `properties`
member, look up the Identity dictionary, skip when it is absent or falsy,
otherwise substitute and write back in place. -/
def processElement (i : Nat) (element : PyVal) : Except String PyVal :=
  match element with
  | .base mem =>
    let mem2 := tagMembers i mem
    if (dictGet mem2 "properties").isSome = false then .ok (.base mem2)
    else
      let props := (dictGet mem2 "properties").getD .none
      match identityLookup props with
      | .error e => .error e
      | .ok IdentityLoc.notFound => .ok (.base mem2)
      | .ok (IdentityLoc.top kvs) =>
        if kvs.isEmpty then .ok (.base mem2)
        else .ok (.base (setKey mem2 "properties"
          (updateIdentity props (IdentityLoc.top kvs) (substIdentity kvs))))
      | .ok (IdentityLoc.nested kvs) =>
        if kvs.isEmpty then .ok (.base mem2)
        else .ok (.base (setKey mem2 "properties"
          (updateIdentity props (IdentityLoc.nested kvs) (substIdentity kvs))))
  | _ => .ok element

/-- Python iteration over a value: lists yield their elements, strings
yield one-character strings, dicts yield their keys; other values raise
`TypeError`. -/
def iterSeq : PyVal → Except String (List PyVal)
  | .list xs => .ok xs
  | .str s => .ok (s.toList.map (fun c => .str (String.singleton c)))
  | .dict kvs => .ok (kvs.map (fun p => .str p.1))
  | _ => .error "TypeError: object is not iterable"

/-- Python `getattr(data, k, default)`-style dynamic member lookup: only
`Base` objects expose these dynamic members. -/
def getattrOpt (data : PyVal) (k : String) : Option PyVal :=
  match data with
  | .base mem => dictGet mem k
  | _ => Option.none

/-- The element-source expression of line 50:
`getattr(data, "@elements", None) or getattr(data, "elements", [])`. -/
def elementsExpr (data : PyVal) : PyVal :=
  pyOr ((getattrOpt data "@elements").getD .none) ((getattrOpt data "elements").getD (.list []))

/-- Indexed traversal in the `Except` monad (the `enumerate` loop). -/
def mapIdxE (f : Nat → PyVal → Except String PyVal) :
    Nat → List PyVal → Except String (List PyVal)
  | _, [] => .ok []
  | i, x :: xs => do
    let y ← f i x
    let ys ← mapIdxE f (i + 1) xs
    .ok (y :: ys)

/-- Write-back when the iterated list came from the `elements` attribute:
only a truthy list attribute aliases the iterated list (the falsy case
iterated a fresh empty list instead). -/
def writeBackElements (mem : List (String × PyVal)) (newXs : List PyVal)
    (data : PyVal) : PyVal :=
  match dictGet mem "elements" with
  | some (.list ys) => if ys.isEmpty then data else .base (setKey mem "elements" (.list newXs))
  | _ => data

/-- The element iteration of `main` of `03_add_properties.py` (lines 50
to 81): select the element sequence, process each element with its index,
and reflect the in-place mutation of the iterated list back into the
attribute that held it. -/
def main03Step (data : PyVal) : Except String PyVal := do
  let ev := elementsExpr data
  let xs ← iterSeq (pyOr ev (.list []))
  let newXs ← mapIdxE processElement 0 xs
  match data with
  | .base mem =>
    match dictGet mem "@elements" with
    | some v =>
      if truthy v then
        match v with
        | .list _ => .ok (.base (setKey mem "@elements" (.list newXs)))
        | _ => .ok data
      else .ok (writeBackElements mem newXs data)
    | Option.none => .ok (writeBackElements mem newXs data)
  | _ => .ok data

/-- Root-level property assignments of `main` (lines 38 to 40). -/
def addRootProps (data : PyVal) : PyVal :=
  match data with
  | .base mem =>
      .base (setKey (setKey (setKey mem "custom_property" (.str "Team_02.2"))
        "analysis_date" (.str "2026-01-18")) "processed_by" (.str "Shuai Zhang"))
  | .dict kvs =>
      .dict (setKey (setKey (setKey kvs "custom_property" (.str "Team_02.2"))
        "analysis_date" (.str "2026-01-18")) "processed_by" (.str "Shuai Zhang"))
  | other => other

/-- Whether the first candidate path of the identity lookup would hit a
dictionary: `props` has an `Identity` key holding a dict. -/
def topIdentityDict (pk : List (String × PyVal)) : Bool :=
  match dictGet pk "Identity" with
  | some (.dict _) => true
  | _ => false

/-- Actions that touch the remote snapshot or the backup files. -/
def isQueryOrWrite : Action → Bool
  | .query _ _ => true
  | .writeFile _ _ => true
  | _ => false

/-- A trace performs no snapshot fetch and writes no backup file. -/
def noQueryWrite (tr : Trace) : Bool := tr.all (fun a => !(isQueryOrWrite a))

/-- Top-level keys of a JSON object value. -/
def topKeys : PyVal → List String
  | .dict kvs => kvs.map (fun p => p.1)
  | _ => []

/-- Follows the wording of the spec (for the refinement comparison): the
allowed top-level keys of an output file are exactly `projectId`,
`objectId`, optionally `versionId`, `message`, `backupTimestamp`, and
`data`. -/
def specAllowedKeys : List String :=
  ["projectId", "objectId", "versionId", "message", "backupTimestamp", "data"]

/-! ### Association-list lemmas -/

theorem dictGet_setKey_same (kvs : List (String × PyVal)) (k : String) (v : PyVal) :
    dictGet (setKey kvs k v) k = some v := by
  induction kvs with
  | nil => simp [setKey, dictGet]
  | cons p rest ih =>
    obtain ⟨k', v'⟩ := p
    by_cases h : k' = k
    · simp [setKey, h, dictGet]
    · simp [setKey, h, dictGet, ih]

theorem dictGet_setKey_other (kvs : List (String × PyVal)) (k k' : String) (v : PyVal)
    (h : k' ≠ k) : dictGet (setKey kvs k v) k' = dictGet kvs k' := by
  induction kvs with
  | nil => simp [setKey, dictGet, Ne.symm h]
  | cons p rest ih =>
    obtain ⟨hk, hv⟩ := p
    by_cases h1 : hk = k
    · have h2 : hk ≠ k' := by
        rw [h1]; exact Ne.symm h
      simp [setKey, h1, dictGet, h2, Ne.symm h]
    · by_cases h3 : hk = k'
      · simp [setKey, h1, dictGet, h3, h]
      · simp [setKey, h1, dictGet, h3, ih]

theorem setKey_setKey_same (kvs : List (String × PyVal)) (k : String) (v w : PyVal) :
    setKey (setKey kvs k v) k w = setKey kvs k w := by
  induction kvs with
  | nil => simp [setKey]
  | cons p rest ih =>
    obtain ⟨hk, hv⟩ := p
    by_cases h : hk = k
    · simp [setKey, h]
    · simp [setKey, h, ih]

theorem setKey_self (kvs : List (String × PyVal)) (k : String) (v : PyVal)
    (h : dictGet kvs k = some v) : setKey kvs k v = kvs := by
  induction kvs with
  | nil => simp [dictGet] at h
  | cons p rest ih =>
    obtain ⟨hk, hv⟩ := p
    by_cases h1 : hk = k
    · simp [dictGet, h1] at h
      simp [setKey, h1, h]
    · simp [dictGet, h1] at h
      simp [setKey, h1, ih h]

theorem setKey_ne_nil (kvs : List (String × PyVal)) (k : String) (v : PyVal) :
    setKey kvs k v ≠ [] := by
  cases kvs with
  | nil => simp [setKey]
  | cons p rest =>
    obtain ⟨hk, hv⟩ := p
    by_cases h : hk = k <;> simp [setKey, h]

/-! ### mapIdxE lemmas -/

theorem mapIdxE_length (f : Nat → PyVal → Except String PyVal)
    (xs : List PyVal) : ∀ i ys, mapIdxE f i xs = .ok ys → ys.length = xs.length := by
  induction xs with
  | nil =>
    intro i ys h
    simp [mapIdxE] at h
    subst h
    simp
  | cons x rest ih =>
    intro i ys h
    simp only [mapIdxE, bind, Except.bind] at h
    cases hfy : f i x with
    | error e => rw [hfy] at h; exact absurd h (by simp)
    | ok y =>
      rw [hfy] at h
      cases hrest : mapIdxE f (i + 1) rest with
      | error e => rw [hrest] at h; exact absurd h (by simp)
      | ok ys2 =>
        rw [hrest] at h
        simp only [Except.ok.injEq] at h
        rw [← h]
        simp [ih (i + 1) ys2 hrest]

theorem mapIdxE_stable (f : Nat → PyVal → Except String PyVal)
    (hf : ∀ i x y, f i x = .ok y → f i y = .ok y)
    (xs : List PyVal) : ∀ i ys, mapIdxE f i xs = .ok ys → mapIdxE f i ys = .ok ys := by
  induction xs with
  | nil =>
    intro i ys h
    simp [mapIdxE] at h
    subst h
    simp [mapIdxE]
  | cons x rest ih =>
    intro i ys h
    simp only [mapIdxE, bind, Except.bind] at h
    cases hfy : f i x with
    | error e => rw [hfy] at h; exact absurd h (by simp)
    | ok y =>
      rw [hfy] at h
      cases hrest : mapIdxE f (i + 1) rest with
      | error e => rw [hrest] at h; exact absurd h (by simp)
      | ok ys2 =>
        rw [hrest] at h
        simp only [Except.ok.injEq] at h
        rw [← h]
        simp only [mapIdxE, bind, Except.bind, hf i x y hfy, ih (i + 1) ys2 hrest]

/-! ### substIdentity lemmas -/

theorem dictGet_substIdentity_Module (kvs : List (String × PyVal)) :
    dictGet (substIdentity kvs) "Module" = dictGet kvs "Module" := by
  unfold substIdentity
  split
  · exact dictGet_setKey_other kvs "Designer" "Module" _ (by decide)
  · split
    · exact dictGet_setKey_other kvs "Designer" "Module" _ (by decide)
    · rfl

theorem substIdentity_idem (kvs : List (String × PyVal)) :
    substIdentity (substIdentity kvs) = substIdentity kvs := by
  by_cases h1 : pyEqInt ((dictGet kvs "Module").getD .none) 1 = true
  · have hs : substIdentity kvs = setKey kvs "Designer" (.str "Giovanni Carlo") := by
      unfold substIdentity; rw [h1]; simp
    rw [hs]
    unfold substIdentity
    rw [dictGet_setKey_other kvs "Designer" "Module" _ (by decide), h1]
    simp [setKey_setKey_same]
  · by_cases h3 : pyEqInt ((dictGet kvs "Module").getD .none) 3 = true
    · have hs : substIdentity kvs = setKey kvs "Designer" (.str "Hala Lahlou") := by
        unfold substIdentity; rw [h3]; simp [h1]
      rw [hs]
      unfold substIdentity
      rw [dictGet_setKey_other kvs "Designer" "Module" _ (by decide)]
      simp only [h1, if_false, h3, if_true]
      simp [setKey_setKey_same, h1]
    · have hs : substIdentity kvs = kvs := by
        unfold substIdentity; simp [h1, h3]
      rw [hs, hs]

theorem substIdentity_ne_nil (kvs : List (String × PyVal)) (h : kvs ≠ []) :
    substIdentity kvs ≠ [] := by
  unfold substIdentity
  split
  · exact setKey_ne_nil _ _ _
  · split
    · exact setKey_ne_nil _ _ _
    · exact h

/-! ### Identity lookup lemmas -/

theorem identityLookupBim_ne_top (props : PyVal) (kvs : List (String × PyVal)) :
    identityLookupBim props ≠ .ok (.top kvs) := by
  intro h
  simp only [identityLookupBim, bind, Except.bind, pure] at h
  repeat' split at h
  all_goals simp_all

theorem identityLookup_top_eq (pk kvs : List (String × PyVal))
    (h : dictGet pk "Identity" = some (.dict kvs)) :
    identityLookup (.dict pk) = .ok (.top kvs) := by
  simp [identityLookup, bind, Except.bind, pyContains, h, pySubscript]

theorem identityLookup_nested_eq (pk bimKvs kvs : List (String × PyVal))
    (h1 : topIdentityDict pk = false)
    (h2 : dictGet pk "BIM" = some (.dict bimKvs))
    (h3 : dictGet bimKvs "Identity" = some (.dict kvs)) :
    identityLookup (.dict pk) = .ok (.nested kvs) := by
  simp only [identityLookup, identityLookupBim, bind, Except.bind, pyContains, pySubscript, h2, h3]
  simp only [topIdentityDict] at h1
  cases hid : dictGet pk "Identity" with
  | none => simp [hid, h2, h3]
  | some v => cases v <;> simp_all [hid, h2, h3]

theorem identityLookup_top_inv (props : PyVal) (kvs : List (String × PyVal))
    (h : identityLookup props = .ok (.top kvs)) :
    ∃ pk, props = .dict pk ∧ dictGet pk "Identity" = some (.dict kvs) := by
  cases props
  case dict pk =>
    refine ⟨pk, rfl, ?_⟩
    simp only [identityLookup, bind, Except.bind, pyContains, pySubscript] at h
    cases hid : dictGet pk "Identity" with
    | none => rw [hid] at h; simp at h; exact absurd h (identityLookupBim_ne_top _ _)
    | some v =>
      rw [hid] at h
      simp only [Option.isSome_some, if_true] at h
      cases v <;> simp_all <;> exact absurd h (identityLookupBim_ne_top _ _)
  all_goals
    (simp only [identityLookup, identityLookupBim, bind, Except.bind,
      pyContains, pySubscript] at h
     repeat' split at h
     all_goals simp_all)

theorem identityLookupBim_nested_inv (pk kvs : List (String × PyVal))
    (h : identityLookupBim (.dict pk) = .ok (.nested kvs)) :
    ∃ bimKvs, dictGet pk "BIM" = some (.dict bimKvs) ∧
      dictGet bimKvs "Identity" = some (.dict kvs) := by
  simp only [identityLookupBim, bind, Except.bind, pyContains, pySubscript] at h
  cases hbim : dictGet pk "BIM" with
  | none => rw [hbim] at h; simp at h
  | some w =>
    rw [hbim] at h
    simp only [Option.isSome_some, if_true] at h
    cases w
    case dict bimKvs =>
      refine ⟨bimKvs, rfl, ?_⟩
      cases hbid : dictGet bimKvs "Identity" with
      | none => simp_all
      | some u => cases u <;> simp_all
    all_goals (repeat' split at h; all_goals simp_all)

theorem identityLookup_nested_firstCond (pk kvs : List (String × PyVal))
    (h : identityLookup (.dict pk) = .ok (.nested kvs)) :
    topIdentityDict pk = false ∧ identityLookupBim (.dict pk) = .ok (.nested kvs) := by
  simp only [identityLookup, bind, Except.bind, pyContains, pySubscript] at h
  cases hid : dictGet pk "Identity" with
  | none =>
    rw [hid] at h
    simp only [Option.isSome_none, Bool.false_eq_true, if_false] at h
    exact ⟨by simp [topIdentityDict, hid], h⟩
  | some v =>
    rw [hid] at h
    simp only [Option.isSome_some, if_true] at h
    cases v <;> simp_all [topIdentityDict]

theorem identityLookup_nested_inv (props : PyVal) (kvs : List (String × PyVal))
    (h : identityLookup props = .ok (.nested kvs)) :
    ∃ pk bimKvs, props = .dict pk ∧ topIdentityDict pk = false ∧
      dictGet pk "BIM" = some (.dict bimKvs) ∧
      dictGet bimKvs "Identity" = some (.dict kvs) := by
  cases props
  case dict pk =>
    obtain ⟨h1, h2⟩ := identityLookup_nested_firstCond pk kvs h
    obtain ⟨bimKvs, h3, h4⟩ := identityLookupBim_nested_inv pk kvs h2
    exact ⟨pk, bimKvs, rfl, h1, h3, h4⟩
  all_goals
    (simp only [identityLookup, identityLookupBim, bind, Except.bind,
      pyContains, pySubscript] at h
     repeat' split at h
     all_goals simp_all)

/-! ### Element processing lemmas -/

theorem dictGet_tagMembers_index (i : Nat) (mem : List (String × PyVal)) :
    dictGet (tagMembers i mem) "element_index" = some (.int i) := by
  have hne1 : ("element_index" : String) ≠ "custom_tag" := by decide
  unfold tagMembers
  rw [dictGet_setKey_other _ _ _ _ hne1, dictGet_setKey_same]

theorem dictGet_tagMembers_tag (i : Nat) (mem : List (String × PyVal)) :
    dictGet (tagMembers i mem) "custom_tag" = some (.str ("Element_" ++ pad3 i)) := by
  unfold tagMembers
  rw [dictGet_setKey_same]

theorem tagMembers_self (i : Nat) (mem : List (String × PyVal))
    (h1 : dictGet mem "element_index" = some (.int i))
    (h2 : dictGet mem "custom_tag" = some (.str ("Element_" ++ pad3 i))) :
    tagMembers i mem = mem := by
  unfold tagMembers
  rw [setKey_self _ _ _ h1, setKey_self _ _ _ h2]

theorem tagMembers_tagMembers (i : Nat) (mem : List (String × PyVal)) :
    tagMembers i (tagMembers i mem) = tagMembers i mem :=
  tagMembers_self i _ (dictGet_tagMembers_index i mem) (dictGet_tagMembers_tag i mem)

theorem topIdentityDict_setKey_BIM (pk : List (String × PyVal)) (v : PyVal)
    (h : topIdentityDict pk = false) : topIdentityDict (setKey pk "BIM" v) = false := by
  have hne : ("Identity" : String) ≠ "BIM" := by decide
  unfold topIdentityDict at h ⊢
  rw [dictGet_setKey_other _ _ _ _ hne]
  exact h

theorem processElement_stable (i : Nat) (e e₁ : PyVal)
    (h : processElement i e = .ok e₁) : processElement i e₁ = .ok e₁ := by
  have hne_ei_p : ("element_index" : String) ≠ "properties" := by decide
  have hne_ct_p : ("custom_tag" : String) ≠ "properties" := by decide
  cases e
  case base mem =>
    simp only [processElement] at h
    by_cases hp : (dictGet (tagMembers i mem) "properties").isSome
    · rw [if_neg (by simp [hp])] at h
      split at h
      next err heq => simp at h
      next heq =>
        simp only [Except.ok.injEq] at h
        subst h
        simp only [processElement, tagMembers_tagMembers]
        rw [if_neg (by simp [hp]), heq]
      next kvs heq =>
        by_cases hk : kvs.isEmpty
        · rw [if_pos hk] at h
          simp only [Except.ok.injEq] at h
          subst h
          simp only [processElement, tagMembers_tagMembers]
          simp [hp, heq, hk]
        · rw [if_neg hk] at h
          simp only [Except.ok.injEq] at h
          obtain ⟨pk, hpk, hid⟩ := identityLookup_top_inv _ _ heq
          subst h
          rw [hpk]
          simp only [updateIdentity]
          have f3 : dictGet (setKey (tagMembers i mem) "properties"
              (.dict (setKey pk "Identity" (.dict (substIdentity kvs))))) "properties" =
              some (.dict (setKey pk "Identity" (.dict (substIdentity kvs)))) :=
            dictGet_setKey_same _ _ _
          have f1 : dictGet (setKey (tagMembers i mem) "properties"
              (.dict (setKey pk "Identity" (.dict (substIdentity kvs))))) "element_index" =
              some (.int i) := by
            rw [dictGet_setKey_other _ _ _ _ hne_ei_p]
            exact dictGet_tagMembers_index i mem
          have f2 : dictGet (setKey (tagMembers i mem) "properties"
              (.dict (setKey pk "Identity" (.dict (substIdentity kvs))))) "custom_tag" =
              some (.str ("Element_" ++ pad3 i)) := by
            rw [dictGet_setKey_other _ _ _ _ hne_ct_p]
            exact dictGet_tagMembers_tag i mem
          have htag := tagMembers_self i _ f1 f2
          have hlook1 : identityLookup (.dict (setKey pk "Identity"
              (.dict (substIdentity kvs)))) = .ok (.top (substIdentity kvs)) :=
            identityLookup_top_eq _ _ (dictGet_setKey_same _ _ _)
          have hkne : (substIdentity kvs).isEmpty = false := by
            have hnil : substIdentity kvs ≠ [] :=
              substIdentity_ne_nil kvs (by simpa using hk)
            cases hsk : substIdentity kvs with
            | nil => exact absurd hsk hnil
            | cons a l => rfl
          simp only [processElement, htag]
          simp [f3, hlook1, hkne, updateIdentity, substIdentity_idem,
            setKey_setKey_same, dictGet_setKey_same, setKey_self _ _ _ f3]
      next kvs heq =>
        by_cases hk : kvs.isEmpty
        · rw [if_pos hk] at h
          simp only [Except.ok.injEq] at h
          subst h
          simp only [processElement, tagMembers_tagMembers]
          simp [hp, heq, hk]
        · rw [if_neg hk] at h
          simp only [Except.ok.injEq] at h
          obtain ⟨pk, bimKvs, hpk, htop, hbim, hbid⟩ := identityLookup_nested_inv _ _ heq
          subst h
          rw [hpk]
          simp only [updateIdentity]
          rw [hbim]
          have f3 : dictGet (setKey (tagMembers i mem) "properties"
              (.dict (setKey pk "BIM" (.dict (setKey bimKvs "Identity"
                (.dict (substIdentity kvs))))))) "properties" =
              some (.dict (setKey pk "BIM" (.dict (setKey bimKvs "Identity"
                (.dict (substIdentity kvs)))))) :=
            dictGet_setKey_same _ _ _
          have f1 : dictGet (setKey (tagMembers i mem) "properties"
              (.dict (setKey pk "BIM" (.dict (setKey bimKvs "Identity"
                (.dict (substIdentity kvs))))))) "element_index" =
              some (.int i) := by
            rw [dictGet_setKey_other _ _ _ _ hne_ei_p]
            exact dictGet_tagMembers_index i mem
          have f2 : dictGet (setKey (tagMembers i mem) "properties"
              (.dict (setKey pk "BIM" (.dict (setKey bimKvs "Identity"
                (.dict (substIdentity kvs))))))) "custom_tag" =
              some (.str ("Element_" ++ pad3 i)) := by
            rw [dictGet_setKey_other _ _ _ _ hne_ct_p]
            exact dictGet_tagMembers_tag i mem
          have htag := tagMembers_self i _ f1 f2
          have hlook1 : identityLookup (.dict (setKey pk "BIM"
              (.dict (setKey bimKvs "Identity" (.dict (substIdentity kvs)))))) =
              .ok (.nested (substIdentity kvs)) :=
            identityLookup_nested_eq _ _ _
              (topIdentityDict_setKey_BIM pk _ htop)
              (dictGet_setKey_same _ _ _)
              (dictGet_setKey_same _ _ _)
          have hkne : (substIdentity kvs).isEmpty = false := by
            have hnil : substIdentity kvs ≠ [] :=
              substIdentity_ne_nil kvs (by simpa using hk)
            cases hsk : substIdentity kvs with
            | nil => exact absurd hsk hnil
            | cons a l => rfl
          simp only [processElement, htag]
          simp [f3, hlook1, hkne, updateIdentity, substIdentity_idem,
            setKey_setKey_same, dictGet_setKey_same, setKey_self _ _ _ f3]
    · rw [if_pos (by simpa using hp)] at h
      simp only [Except.ok.injEq] at h
      subst h
      simp only [processElement, tagMembers_tagMembers]
      rw [if_pos (by simpa using hp)]
  all_goals
    (simp only [processElement, Except.ok.injEq] at h
     subst h
     rfl)

/-! ### main03Step lemmas -/

theorem truthy_list_of_ne_nil (l : List PyVal) (h : l ≠ []) : truthy (.list l) = true := by
  cases l with
  | nil => exact absurd rfl h
  | cons a t => rfl

theorem ne_nil_of_truthy_list (l : List PyVal) (h : truthy (.list l) = true) : l ≠ [] := by
  cases l with
  | nil => simp [truthy, List.isEmpty] at h
  | cons a t => simp

theorem main03Step_base_elements (mem : List (String × PyVal))
    (hA : truthy ((dictGet mem "@elements").getD .none) = false) :
    main03Step (.base mem) =
      (iterSeq (pyOr ((dictGet mem "elements").getD (.list [])) (.list []))).bind
        (fun xs => (mapIdxE processElement 0 xs).bind
          (fun newXs => .ok (writeBackElements mem newXs (.base mem)))) := by
  cases hAo : dictGet mem "@elements" with
  | none =>
    simp only [main03Step, elementsExpr, getattrOpt, hAo, Option.getD_none, pyOr, truthy,
      Bool.false_eq_true, if_false, bind, Except.bind]
  | some v =>
    rw [hAo] at hA
    simp only [Option.getD_some] at hA
    simp only [main03Step, elementsExpr, getattrOpt, hAo, Option.getD_some, pyOr, hA,
      Bool.false_eq_true, if_false, bind, Except.bind]

theorem main03Step_base_atElements (mem : List (String × PyVal)) (xs : List PyVal)
    (hAo : dictGet mem "@elements" = some (.list xs)) (hxs : xs ≠ []) :
    main03Step (.base mem) =
      (mapIdxE processElement 0 xs).bind
        (fun newXs => .ok (.base (setKey mem "@elements" (.list newXs)))) := by
  have htv : truthy (.list xs) = true := truthy_list_of_ne_nil xs hxs
  simp only [main03Step, elementsExpr, getattrOpt, hAo, Option.getD_some, pyOr, htv,
    if_true, iterSeq, bind, Except.bind]

theorem bind_const_ok {ε β γ : Type} (x : Except ε β) (c : γ) (d : γ)
    (h : (x.bind (fun _ => Except.ok c)) = Except.ok d) :
    d = c ∧ ∃ y, x = .ok y := by
  cases x with
  | error e2 => simp [Except.bind] at h
  | ok y =>
    refine ⟨?_, y, rfl⟩
    simp [Except.bind] at h
    exact h.symm

theorem main03Step_stable (data d₁ : PyVal) (h : main03Step data = .ok d₁) :
    main03Step d₁ = .ok d₁ := by
  have hne_at : ("@elements" : String) ≠ "elements" := by decide
  have h0 := h
  cases data
  case base mem =>
    by_cases hA : truthy ((dictGet mem "@elements").getD .none)
    · -- the "@elements" attribute holds a truthy value
      cases hAo : dictGet mem "@elements" with
      | none => rw [hAo] at hA; simp [truthy] at hA
      | some v =>
        rw [hAo] at hA
        simp only [Option.getD_some] at hA
        cases v with
        | none => simp [truthy] at hA
        | list xs =>
          have hxs : xs ≠ [] := ne_nil_of_truthy_list xs hA
          rw [main03Step_base_atElements mem xs hAo hxs] at h
          cases hmap : mapIdxE processElement 0 xs with
          | error e => rw [hmap] at h; simp [bind, Except.bind] at h
          | ok ys =>
            rw [hmap] at h
            simp only [bind, Except.bind, Except.ok.injEq] at h
            subst h
            have hys : ys ≠ [] := by
              intro hc
              apply hxs
              have hlen := mapIdxE_length processElement xs 0 ys hmap
              rw [hc] at hlen
              exact List.length_eq_zero.mp hlen.symm
            have hstab := mapIdxE_stable processElement
              (fun i x y hxy => processElement_stable i x y hxy) xs 0 ys hmap
            rw [main03Step_base_atElements (setKey mem "@elements" (.list ys)) ys
              (dictGet_setKey_same _ _ _) hys, hstab]
            simp [bind, Except.bind, setKey_setKey_same]
        | str s =>
          have hgen : main03Step (.base mem) =
              (mapIdxE processElement 0
                (s.toList.map (fun c => PyVal.str (String.singleton c)))).bind
                (fun _ => Except.ok (PyVal.base mem)) := by
            simp only [main03Step, elementsExpr, getattrOpt, hAo, Option.getD_some, pyOr,
              hA, if_true, iterSeq, bind, Except.bind]
          rw [hgen] at h
          obtain ⟨hd, y, hy⟩ := bind_const_ok _ _ _ h
          subst hd
          rw [hgen, hy]
          simp [Except.bind]
        | dict kvs2 =>
          have hgen : main03Step (.base mem) =
              (mapIdxE processElement 0 (kvs2.map (fun p => PyVal.str p.1))).bind
                (fun _ => Except.ok (PyVal.base mem)) := by
            simp only [main03Step, elementsExpr, getattrOpt, hAo, Option.getD_some, pyOr,
              hA, if_true, iterSeq, bind, Except.bind]
          rw [hgen] at h
          obtain ⟨hd, y, hy⟩ := bind_const_ok _ _ _ h
          subst hd
          rw [hgen, hy]
          simp [Except.bind]
        | bool b =>
          have hgen : main03Step (.base mem) = .error "TypeError: object is not iterable" := by
            simp only [main03Step, elementsExpr, getattrOpt, hAo, Option.getD_some, pyOr,
              hA, if_true, iterSeq, bind, Except.bind]
          rw [hgen] at h
          exact absurd h (by simp)
        | int n =>
          have hgen : main03Step (.base mem) = .error "TypeError: object is not iterable" := by
            simp only [main03Step, elementsExpr, getattrOpt, hAo, Option.getD_some, pyOr,
              hA, if_true, iterSeq, bind, Except.bind]
          rw [hgen] at h
          exact absurd h (by simp)
        | base m2 =>
          have hgen : main03Step (.base mem) = .error "TypeError: object is not iterable" := by
            simp only [main03Step, elementsExpr, getattrOpt, hAo, Option.getD_some, pyOr,
              hA, if_true, iterSeq, bind, Except.bind]
          rw [hgen] at h
          exact absurd h (by simp)
    · -- the "@elements" attribute is absent or falsy
      have hAf : truthy ((dictGet mem "@elements").getD .none) = false := by
        simpa using hA
      rw [main03Step_base_elements mem hAf] at h
      cases hit : iterSeq (pyOr ((dictGet mem "elements").getD (.list [])) (.list [])) with
      | error e => rw [hit] at h; simp [Except.bind] at h
      | ok xs =>
        rw [hit] at h
        simp only [Except.bind] at h
        cases hmap : mapIdxE processElement 0 xs with
        | error e => rw [hmap] at h; simp [Except.bind] at h
        | ok ns =>
          rw [hmap] at h
          simp only [Except.bind, Except.ok.injEq] at h
          cases hE : dictGet mem "elements" with
          | some w =>
            cases w with
            | list ys =>
              by_cases hys : ys.isEmpty
              · have hd : writeBackElements mem ns (.base mem) = .base mem := by
                  simp [writeBackElements, hE, hys]
                rw [hd] at h
                subst h
                exact h0
              · have hysne : ys ≠ [] := by
                  cases ys with
                  | nil => simp at hys
                  | cons a t => simp
                have hev : pyOr ((dictGet mem "elements").getD (.list [])) (.list []) =
                    .list ys := by
                  simp [hE, pyOr, truthy_list_of_ne_nil ys hysne]
                rw [hev] at hit
                simp only [iterSeq, Except.ok.injEq] at hit
                subst hit
                have hd : writeBackElements mem ns (.base mem) =
                    .base (setKey mem "elements" (.list ns)) := by
                  simp [writeBackElements, hE, hys]
                rw [hd] at h
                subst h
                have hnsne : ns ≠ [] := by
                  intro hc
                  apply hysne
                  have hlen := mapIdxE_length processElement ys 0 ns hmap
                  rw [hc] at hlen
                  exact List.length_eq_zero.mp hlen.symm
                have hAf1 : truthy ((dictGet (setKey mem "elements" (.list ns))
                    "@elements").getD .none) = false := by
                  rw [dictGet_setKey_other _ _ _ _ hne_at]
                  exact hAf
                rw [main03Step_base_elements _ hAf1]
                have hE1 : dictGet (setKey mem "elements" (.list ns)) "elements" =
                    some (.list ns) := dictGet_setKey_same _ _ _
                have hev1 : pyOr ((dictGet (setKey mem "elements" (.list ns))
                    "elements").getD (.list [])) (.list []) = .list ns := by
                  simp [hE1, pyOr, truthy_list_of_ne_nil ns hnsne]
                rw [hev1]
                have hstab := mapIdxE_stable processElement
                  (fun i x y hxy => processElement_stable i x y hxy) ys 0 ns hmap
                have hnsEmpty : ns.isEmpty = false := by
                  cases ns with
                  | nil => exact absurd rfl hnsne
                  | cons a t => rfl
                simp only [iterSeq, Except.bind, hstab]
                simp [writeBackElements, hE1, hnsEmpty, setKey_setKey_same]
            | none =>
              have hd : writeBackElements mem ns (.base mem) = .base mem := by
                simp [writeBackElements, hE]
              rw [hd] at h
              subst h
              exact h0
            | bool b2 =>
              have hd : writeBackElements mem ns (.base mem) = .base mem := by
                simp [writeBackElements, hE]
              rw [hd] at h
              subst h
              exact h0
            | int n2 =>
              have hd : writeBackElements mem ns (.base mem) = .base mem := by
                simp [writeBackElements, hE]
              rw [hd] at h
              subst h
              exact h0
            | str s2 =>
              have hd : writeBackElements mem ns (.base mem) = .base mem := by
                simp [writeBackElements, hE]
              rw [hd] at h
              subst h
              exact h0
            | dict kd =>
              have hd : writeBackElements mem ns (.base mem) = .base mem := by
                simp [writeBackElements, hE]
              rw [hd] at h
              subst h
              exact h0
            | base mb =>
              have hd : writeBackElements mem ns (.base mem) = .base mem := by
                simp [writeBackElements, hE]
              rw [hd] at h
              subst h
              exact h0
          | none =>
            have hd : writeBackElements mem ns (.base mem) = .base mem := by
              simp [writeBackElements, hE]
            rw [hd] at h
            subst h
            exact h0
  case none =>
    have hrun : main03Step PyVal.none = .ok PyVal.none := rfl
    rw [hrun] at h
    simp only [Except.ok.injEq] at h
    subst h
    exact hrun
  case bool b =>
    have hrun : main03Step (.bool b) = .ok (.bool b) := rfl
    rw [hrun] at h
    simp only [Except.ok.injEq] at h
    subst h
    exact hrun
  case int n =>
    have hrun : main03Step (.int n) = .ok (.int n) := rfl
    rw [hrun] at h
    simp only [Except.ok.injEq] at h
    subst h
    exact hrun
  case str s =>
    have hrun : main03Step (.str s) = .ok (.str s) := rfl
    rw [hrun] at h
    simp only [Except.ok.injEq] at h
    subst h
    exact hrun
  case list xs =>
    have hrun : main03Step (.list xs) = .ok (.list xs) := rfl
    rw [hrun] at h
    simp only [Except.ok.injEq] at h
    subst h
    exact hrun
  case dict kvs =>
    have hrun : main03Step (.dict kvs) = .ok (.dict kvs) := rfl
    rw [hrun] at h
    simp only [Except.ok.injEq] at h
    subst h
    exact hrun

/-! ### Claim support lemmas -/

theorem underscore_split (a : List Char) : ∀ (b u v : List Char),
    '_' ∉ a → '_' ∉ b → a ++ '_' :: u = b ++ '_' :: v → a = b := by
  induction a with
  | nil =>
    intro b u v ha hb h
    cases b with
    | nil => rfl
    | cons c bs =>
      simp only [List.nil_append, List.cons_append, List.cons.injEq] at h
      have hc : '_' ∈ c :: bs := by
        rw [h.1]
        exact List.mem_cons_self c bs
      exact absurd hc hb
  | cons c as ih =>
    intro b u v ha hb h
    cases b with
    | nil =>
      simp only [List.cons_append, List.nil_append, List.cons.injEq] at h
      have hc : '_' ∈ c :: as := by
        rw [← h.1]
        exact List.mem_cons_self c as
      exact absurd hc ha
    | cons d bs =>
      simp only [List.cons_append, List.cons.injEq] at h
      have ha2 : '_' ∉ as := fun hm => ha (List.mem_cons_of_mem c hm)
      have hb2 : '_' ∉ bs := fun hm => hb (List.mem_cons_of_mem d hm)
      rw [h.1, ih bs u v ha2 hb2 h.2]

/-! ### Claim theorems -/

/-- C5: the Module to Designer substitution of the mutation workflow is
idempotent: applying it twice to the same payload yields the same result
as applying it once, both on the resolved identity dictionary itself and
for the whole element-iteration pass over a payload (pure overwrite of
the Designer field keyed on Module, no accumulation). -/
theorem C5_module_designer_substitution_idempotent :
    (∀ kvs : List (String × PyVal),
      substIdentity (substIdentity kvs) = substIdentity kvs) ∧
    (∀ data d₁ : PyVal, main03Step data = .ok d₁ → main03Step d₁ = .ok d₁) :=
  ⟨substIdentity_idem, main03Step_stable⟩

/-- Witness for C5 at a concrete payload with `Identity.Module = 1`:
re-running the element pass on its own output changes nothing. -/
theorem C5_module_designer_substitution_idempotent_witness :
    main03Step (.base [("@elements", .list [.base
      [("properties", .dict [("Identity",
          .dict [("Module", .int 1), ("Designer", .str "Giovanni Carlo")])]),
       ("element_index", .int 0), ("custom_tag", .str "Element_000")]])]) =
    .ok (.base [("@elements", .list [.base
      [("properties", .dict [("Identity",
          .dict [("Module", .int 1), ("Designer", .str "Giovanni Carlo")])]),
       ("element_index", .int 0), ("custom_tag", .str "Element_000")]])]) :=
  C5_module_designer_substitution_idempotent.2
    (.base [("@elements", .list [.base
      [("properties", .dict [("Identity", .dict [("Module", .int 1)])])]])])
    (.base [("@elements", .list [.base
      [("properties", .dict [("Identity",
          .dict [("Module", .int 1), ("Designer", .str "Giovanni Carlo")])]),
       ("element_index", .int 0), ("custom_tag", .str "Element_000")]])])
    rfl

/-- C6: an identity dictionary whose Module equals 1 gets its Designer
field set to the configured name for module 1 ("Giovanni Carlo"); one
whose Module equals 2 is left entirely untouched (no rule is defined for
2); and at the element level, an element whose `properties.Identity`
dictionary has Module 1 comes out of the iteration with that Designer
written into its identity dictionary in place. -/
theorem C6_module_rules :
    (∀ kvs : List (String × PyVal), dictGet kvs "Module" = some (.int 1) →
      dictGet (substIdentity kvs) "Designer" = some (.str "Giovanni Carlo")) ∧
    (∀ kvs : List (String × PyVal), dictGet kvs "Module" = some (.int 2) →
      substIdentity kvs = kvs) ∧
    (∀ (i : Nat) (mem pk kvs : List (String × PyVal)),
      dictGet mem "properties" = some (.dict pk) →
      dictGet pk "Identity" = some (.dict kvs) →
      dictGet kvs "Module" = some (.int 1) →
      processElement i (.base mem) = .ok (.base (setKey (tagMembers i mem) "properties"
        (.dict (setKey pk "Identity" (.dict (substIdentity kvs))))))) := by
  refine ⟨?_, ?_, ?_⟩
  · intro kvs h
    unfold substIdentity
    rw [h]
    simp [pyEqInt, dictGet_setKey_same]
  · intro kvs h
    unfold substIdentity
    rw [h]
    simp [pyEqInt]
  · intro i mem pk kvs hp hid hm
    have hkne : kvs ≠ [] := by
      intro hc
      rw [hc] at hm
      simp [dictGet] at hm
    have hpt : dictGet (tagMembers i mem) "properties" = some (.dict pk) := by
      unfold tagMembers
      rw [dictGet_setKey_other _ _ _ _ (by decide), dictGet_setKey_other _ _ _ _ (by decide)]
      exact hp
    have hke : kvs.isEmpty = false := by
      cases kvs with
      | nil => exact absurd rfl hkne
      | cons a t => rfl
    have hlook : identityLookup (.dict pk) = .ok (.top kvs) :=
      identityLookup_top_eq _ _ hid
    simp only [processElement]
    rw [if_neg (by simp [hpt]), hpt, Option.getD_some, hlook]
    simp [hke, updateIdentity]

/-- Witness for C6 at concrete identity dictionaries and a concrete
element. -/
theorem C6_module_rules_witness :
    dictGet (substIdentity [("Module", .int 1)]) "Designer" =
      some (.str "Giovanni Carlo") ∧
    substIdentity [("Module", .int 2), ("Designer", .str "Old")] =
      [("Module", .int 2), ("Designer", .str "Old")] ∧
    processElement 0 (.base [("properties", .dict [("Identity",
        .dict [("Module", .int 1)])])]) =
      .ok (.base (setKey (tagMembers 0 [("properties", .dict [("Identity",
        .dict [("Module", .int 1)])])]) "properties"
        (.dict (setKey [("Identity", .dict [("Module", .int 1)])] "Identity"
          (.dict (substIdentity [("Module", .int 1)])))))) :=
  ⟨C6_module_rules.1 [("Module", .int 1)] rfl,
   C6_module_rules.2.1 [("Module", .int 2), ("Designer", .str "Old")] rfl,
   C6_module_rules.2.2 0 [("properties", .dict [("Identity", .dict [("Module", .int 1)])])]
     [("Identity", .dict [("Module", .int 1)])] [("Module", .int 1)] rfl rfl rfl⟩

/-- C10: the fallback of line 50 to the second field name `elements` is
taken whenever `@elements` is absent or holds a falsy value (Python `or`
tests truthiness, not presence); in particular, for an object whose
`@elements` is present but an empty list, the iterated elements come
from the `elements` field. -/
theorem C10_elements_fallback :
    (∀ mem : List (String × PyVal),
      truthy ((dictGet mem "@elements").getD .none) = false →
      elementsExpr (.base mem) = (dictGet mem "elements").getD (.list [])) ∧
    elementsExpr (.base [("@elements", .list []), ("elements", .list [.int 5])]) =
      .list [.int 5] := by
  constructor
  · intro mem h
    simp [elementsExpr, getattrOpt, pyOr, h]
  · rfl

/-- Witness for C10 at a concrete object carrying an empty `@elements`
and a non-empty `elements`. -/
theorem C10_elements_fallback_witness :
    truthy ((dictGet [("@elements", .list []), ("elements", .list [.int 5])]
      "@elements").getD .none) = false ∧
    elementsExpr (.base [("@elements", .list []), ("elements", .list [.int 5])]) =
      (dictGet [("@elements", .list []), ("elements", .list [.int 5])]
        "elements").getD (.list []) :=
  ⟨rfl, C10_elements_fallback.1 [("@elements", .list []), ("elements", .list [.int 5])] rfl⟩

/-- C4 counterexample: in the `7autobackup.py` filename scheme the
sanitized message follows the version id after an underscore, so the
distinct version ids "a" and "a_b", in the same second, with messages
"b_c" and "c", produce the same filename. -/
theorem C4_counterexample :
    backupFilename7 "20260101_120000" (.str "a") "b_c" =
      backupFilename7 "20260101_120000" (.str "a_b") "c" ∧
    ("a" : String) ≠ "a_b" :=
  ⟨rfl, by decide⟩

/-- C4 amended: filenames of the `8autobacknewversion.py` variant are
distinct for distinct version ids within the same second; for the
`7autobackup.py` variant (which appends the sanitized message) this
holds provided the version ids contain no underscore. -/
theorem C4_amended_filename_uniqueness :
    (∀ ts v₁ v₂ : String, v₁ ≠ v₂ →
      backupFilename8 ts (.str v₁) ≠ backupFilename8 ts (.str v₂)) ∧
    (∀ ts v₁ v₂ m₁ m₂ : String, v₁ ≠ v₂ → '_' ∉ v₁.data → '_' ∉ v₂.data →
      backupFilename7 ts (.str v₁) m₁ ≠ backupFilename7 ts (.str v₂) m₂) := by
  constructor
  · intro ts v₁ v₂ hne heq
    apply hne
    have hd := congrArg String.data heq
    simp only [backupFilename8, pyStr, String.data_append, List.append_assoc] at hd
    replace hd := List.append_cancel_left hd
    replace hd := List.append_cancel_left hd
    replace hd := List.append_cancel_left hd
    replace hd := List.append_cancel_right hd
    exact String.ext hd
  · intro ts v₁ v₂ m₁ m₂ hne hu1 hu2 heq
    apply hne
    have hd := congrArg String.data heq
    simp only [backupFilename7, pyStr, String.data_append, List.append_assoc] at hd
    replace hd := List.append_cancel_left hd
    replace hd := List.append_cancel_left hd
    replace hd := List.append_cancel_left hd
    simp only [List.singleton_append] at hd
    exact String.ext (underscore_split v₁.data v₂.data _ _ hu1 hu2 hd)

/-- Witness for the amended C4 at concrete version ids. -/
theorem C4_amended_filename_uniqueness_witness :
    backupFilename8 "20260101_120000" (.str "v1") ≠
      backupFilename8 "20260101_120000" (.str "v2") ∧
    backupFilename7 "20260101_120000" (.str "abc") "m one" ≠
      backupFilename7 "20260101_120000" (.str "abd") "m two" :=
  ⟨C4_amended_filename_uniqueness.1 "20260101_120000" "v1" "v2" (by decide),
   C4_amended_filename_uniqueness.2 "20260101_120000" "abc" "abd" "m one" "m two"
     (by decide) (by decide) (by decide)⟩

/-- C9 counterexample: with `SPECKLE_TOKEN` absent from the environment,
`6-subscription.py` raises no configuration error at all; it proceeds to
attempt the remote WebSocket connection, with the authorization header
literally reading "Bearer None". -/
theorem C9_counterexample :
    script6Run (fun _ => Option.none) = [Action.connect "Bearer None"] := rfl

/-- C9 amended: with `SPECKLE_TOKEN` absent, `7autobackup.py` fails at
module level, and `03_add_properties.py`, `5-exportJSON-GQL2.py` and
`8autobacknewversion.py` fail inside `get_client` before any remote
operation; `6-subscription.py` alone performs no check and attempts the
connection with a null token. -/
theorem C9_amended_token_check (env : Env) (h : env "SPECKLE_TOKEN" = Option.none) :
    script7Startup env = .error
      "ValueError: ❌ Please set SPECKLE_TOKEN in your environment variables or .env file." ∧
    script03Startup env = .error "ConfigurationError: missing SPECKLE_TOKEN" ∧
    script5Startup env = .error "ConfigurationError: missing SPECKLE_TOKEN" ∧
    script8Startup env = .error "ConfigurationError: missing SPECKLE_TOKEN" ∧
    script6Run env = [Action.connect "Bearer None"] := by
  refine ⟨?_, ?_, ?_, ?_, ?_⟩
  all_goals
    simp [script7Startup, script03Startup, script5Startup, script8Startup,
      get_client, script6Run, envToken, h, truthy, pyStr, pyRepr]

/-- Witness for the amended C9 at the empty environment. -/
theorem C9_amended_token_check_witness :
    script7Startup (fun _ => Option.none) = .error
      "ValueError: ❌ Please set SPECKLE_TOKEN in your environment variables or .env file." ∧
    script03Startup (fun _ => Option.none) = .error "ConfigurationError: missing SPECKLE_TOKEN" ∧
    script5Startup (fun _ => Option.none) = .error "ConfigurationError: missing SPECKLE_TOKEN" ∧
    script8Startup (fun _ => Option.none) = .error "ConfigurationError: missing SPECKLE_TOKEN" ∧
    script6Run (fun _ => Option.none) = [Action.connect "Bearer None"] :=
  C9_amended_token_check (fun _ => Option.none) rfl

/-- C7 counterexample: an element whose Identity dictionary cannot be
found is still modified by the iteration — the unconditional
`element_index` and `custom_tag` assignments happen before the identity
check. -/
theorem C7_counterexample :
    processElement 0 (.base [("properties", .dict [])]) =
      .ok (.base [("properties", .dict []), ("element_index", .int 0),
                  ("custom_tag", .str "Element_000")]) ∧
    PyVal.base [("properties", .dict []), ("element_index", .int 0),
                ("custom_tag", .str "Element_000")] ≠
      PyVal.base [("properties", .dict [])] :=
  ⟨rfl, fun hcontra => by
    have hlen := congrArg
      (fun v => match v with | PyVal.base m => m.length | _ => 0) hcontra
    simp at hlen⟩

/-- C7 amended: if neither `@elements` nor `elements` exists on the root
object, the iteration processes zero elements and raises no error (the
payload is returned unchanged); an element with no `properties` member,
or whose Identity dictionary cannot be found via either candidate path,
is left unmodified except for the unconditional `element_index` and
`custom_tag` tags. -/
theorem C7_amended_skip_behaviour :
    (∀ mem : List (String × PyVal),
      dictGet mem "@elements" = Option.none →
      dictGet mem "elements" = Option.none →
      main03Step (.base mem) = .ok (.base mem)) ∧
    (∀ (i : Nat) (mem : List (String × PyVal)),
      dictGet mem "properties" = Option.none →
      processElement i (.base mem) = .ok (.base (tagMembers i mem))) ∧
    (∀ (i : Nat) (mem : List (String × PyVal)) (props : PyVal),
      dictGet mem "properties" = some props →
      identityLookup props = .ok IdentityLoc.notFound →
      processElement i (.base mem) = .ok (.base (tagMembers i mem))) := by
  refine ⟨?_, ?_, ?_⟩
  · intro mem h1 h2
    simp [main03Step, elementsExpr, getattrOpt, h1, h2, pyOr, truthy, iterSeq,
      mapIdxE, writeBackElements, bind, Except.bind]
  · intro i mem h
    have hpt : dictGet (tagMembers i mem) "properties" = Option.none := by
      unfold tagMembers
      rw [dictGet_setKey_other _ _ _ _ (by decide), dictGet_setKey_other _ _ _ _ (by decide)]
      exact h
    simp [processElement, hpt]
  · intro i mem props hp hlook
    have hpt : dictGet (tagMembers i mem) "properties" = some props := by
      unfold tagMembers
      rw [dictGet_setKey_other _ _ _ _ (by decide), dictGet_setKey_other _ _ _ _ (by decide)]
      exact hp
    simp only [processElement]
    rw [if_neg (by simp [hpt]), hpt, Option.getD_some, hlook]

/-- Witness for the amended C7 at concrete payloads. -/
theorem C7_amended_skip_behaviour_witness :
    main03Step (.base [("custom_property", .str "x")]) =
      .ok (.base [("custom_property", .str "x")]) ∧
    processElement 1 (.base [("a", .int 7)]) =
      .ok (.base (tagMembers 1 [("a", .int 7)])) ∧
    processElement 2 (.base [("properties", .dict [("other", .int 3)])]) =
      .ok (.base (tagMembers 2 [("properties", .dict [("other", .int 3)])])) :=
  ⟨C7_amended_skip_behaviour.1 [("custom_property", .str "x")] rfl rfl,
   C7_amended_skip_behaviour.2.1 1 [("a", .int 7)] rfl,
   C7_amended_skip_behaviour.2.2 2 [("properties", .dict [("other", .int 3)])]
     (.dict [("other", .int 3)]) rfl rfl⟩

/-- C2: when the fetched data field is empty or absent (falsy), both
backup operations write no file, log the no-data warning, and return
without error (the trace is exactly the start print, the query, and the
warning, with no failure log); conversely, a file write is only ever
attempted when the extracted data is truthy. -/
theorem C2_empty_data_skip :
    (∀ (remote : Remote) (v o m : PyVal) (ts : String)
        (result : List (String × PyVal)) (d : PyVal),
      remote o = .ok result → dataExtract result = .ok d → truthy d = false →
      fetch_and_save_data remote v o m ts =
        [Action.print ("   ⏳ Starting backup for Object: " ++ pyStr o ++ "..."),
         Action.query PROJECT_ID o,
         Action.print "   ⚠️  No data found for this object."]) ∧
    (∀ (remote : Remote) (pid : String) (o vi m : PyVal) (ts : String)
        (result : List (String × PyVal)) (d : PyVal),
      remote o = .ok result → dataExtract result = .ok d → truthy d = false →
      save_backup remote pid o vi m ts =
        [Action.print ("   ⬇️  Starting download for Object: " ++ pyStr o ++ "..."),
         Action.query pid o,
         Action.print "   ⚠️  No data found for this object."]) ∧
    (∀ (remote : Remote) (v o m : PyVal) (ts name : String) (content : PyVal),
      Action.writeFile name content ∈ fetch_and_save_data remote v o m ts →
      ∃ result d, remote o = .ok result ∧ dataExtract result = .ok d ∧
        truthy d = true) ∧
    (∀ (remote : Remote) (pid : String) (o vi m : PyVal) (ts name : String)
        (content : PyVal),
      Action.writeFile name content ∈ save_backup remote pid o vi m ts →
      ∃ result d, remote o = .ok result ∧ dataExtract result = .ok d ∧
        truthy d = true) := by
  refine ⟨?_, ?_, ?_, ?_⟩
  · intro remote v o m ts result d h1 h2 h3
    simp [fetch_and_save_data, fetchAndSaveBody7, h1, h2, h3]
  · intro remote pid o vi m ts result d h1 h2 h3
    simp [save_backup, saveBackupBody8, h1, h2, h3]
  · intro remote v o m ts name content hmem
    cases hro : remote o with
    | errored e =>
      simp [fetch_and_save_data, fetchAndSaveBody7, hro] at hmem
    | ok result =>
      cases hde : dataExtract result with
      | error e =>
        simp [fetch_and_save_data, fetchAndSaveBody7, hro, hde] at hmem
      | ok d =>
        by_cases htd : truthy d
        · exact ⟨result, d, rfl, hde, htd⟩
        · have htd2 : truthy d = false := by simpa using htd
          simp [fetch_and_save_data, fetchAndSaveBody7, hro, hde, htd2] at hmem
  · intro remote pid o vi m ts name content hmem
    cases hro : remote o with
    | errored e =>
      simp [save_backup, saveBackupBody8, hro] at hmem
    | ok result =>
      cases hde : dataExtract result with
      | error e =>
        simp [save_backup, saveBackupBody8, hro, hde] at hmem
      | ok d =>
        by_cases htd : truthy d
        · exact ⟨result, d, rfl, hde, htd⟩
        · have htd2 : truthy d = false := by simpa using htd
          simp [save_backup, saveBackupBody8, hro, hde, htd2] at hmem

/-- Witness for C2 at a concrete response whose object carries no data
field. -/
theorem C2_empty_data_skip_witness :
    fetch_and_save_data
        (fun _ => .ok [("project", .dict [("object", .dict [("id", .str "x")])])])
        (.str "v") (.str "o") (.str "m") "20260101_120000" =
      [Action.print ("   ⏳ Starting backup for Object: " ++ pyStr (.str "o") ++ "..."),
       Action.query PROJECT_ID (.str "o"),
       Action.print "   ⚠️  No data found for this object."] ∧
    save_backup
        (fun _ => .ok [("project", .dict [("object", .dict [("id", .str "x")])])])
        "128262a20c" (.str "o") (.str "v") (.str "m") "20260101_120000" =
      [Action.print ("   ⬇️  Starting download for Object: " ++ pyStr (.str "o") ++ "..."),
       Action.query "128262a20c" (.str "o"),
       Action.print "   ⚠️  No data found for this object."] :=
  ⟨C2_empty_data_skip.1
      (fun _ => .ok [("project", .dict [("object", .dict [("id", .str "x")])])])
      (.str "v") (.str "o") (.str "m") "20260101_120000"
      [("project", .dict [("object", .dict [("id", .str "x")])])] PyVal.none
      rfl rfl rfl,
   C2_empty_data_skip.2.1
      (fun _ => .ok [("project", .dict [("object", .dict [("id", .str "x")])])])
      "128262a20c" (.str "o") (.str "v") (.str "m") "20260101_120000"
      [("project", .dict [("object", .dict [("id", .str "x")])])] PyVal.none
      rfl rfl rfl⟩

/-- C1: for a received notification whose event type is neither CREATED
nor UPDATED, or whose referenced object id is empty or absent, neither
listening workflow performs a snapshot query or writes a backup file. -/
theorem C1_filter_blocks_fetch (remote7 remote8 : Remote) (ts : String)
    (result event : List (String × PyVal))
    (hev : pyGetD result "projectVersionsUpdated" (.dict []) = .dict event)
    (hcond :
      (eqStr (pyGetD event "type" .none) "CREATED" = false ∧
       eqStr (pyGetD event "type" .none) "UPDATED" = false) ∨
      (∀ version : List (String × PyVal),
        pyGetD event "version" (.dict []) = .dict version →
        truthy (pyGetD version "referencedObject" .none) = false)) :
    noQueryWrite (handleNotification7 remote7 ts result).1 = true ∧
    noQueryWrite (handleNotification8 remote8 ts result).1 = true := by
  constructor
  · -- 7autobackup.py
    rcases hcond with ⟨h1, h2⟩ | hobj
    · simp [handleNotification7, hev, asDict, h1, h2, noQueryWrite, isQueryOrWrite]
    · by_cases hg : (eqStr (pyGetD event "type" .none) "CREATED" ||
          eqStr (pyGetD event "type" .none) "UPDATED") &&
          truthy (pyGetD event "version" (.dict []))
      · cases hv : dictGet event "version" with
        | none =>
          have hfalse : truthy (pyGetD event "version" (.dict [])) = false := by
            simp [pyGetD, hv, truthy]
          rw [hfalse] at hg
          simp at hg
        | some w =>
          have hw : pyGetD event "version" (.dict []) = w := by simp [pyGetD, hv]
          cases w with
          | dict version =>
            have hro := hobj version hw
            simp [handleNotification7, hev, asDict, hg, hw, hro, noQueryWrite,
              isQueryOrWrite]
            split <;> simp
          | none => rw [hw] at hg; simp [truthy] at hg
          | bool b =>
            simp [handleNotification7, hev, asDict, hg, hw, noQueryWrite, isQueryOrWrite]
            split <;> simp
          | int n =>
            simp [handleNotification7, hev, asDict, hg, hw, noQueryWrite, isQueryOrWrite]
            split <;> simp
          | str s2 =>
            simp [handleNotification7, hev, asDict, hg, hw, noQueryWrite, isQueryOrWrite]
            split <;> simp
          | list xs =>
            simp [handleNotification7, hev, asDict, hg, hw, noQueryWrite, isQueryOrWrite]
            split <;> simp
          | base mb =>
            simp [handleNotification7, hev, asDict, hg, hw, noQueryWrite, isQueryOrWrite]
            split <;> simp
      · have hg2 : ((eqStr (pyGetD event "type" .none) "CREATED" ||
            eqStr (pyGetD event "type" .none) "UPDATED") &&
            truthy (pyGetD event "version" (.dict []))) = false := by
          simpa using hg
        simp [handleNotification7, hev, asDict, hg2, noQueryWrite, isQueryOrWrite]
  · -- 8autobacknewversion.py
    cases hdg : dictGet result "projectVersionsUpdated" with
    | none =>
      simp [handleNotification8, pyGetD, hdg, truthy, noQueryWrite, isQueryOrWrite]
    | some w =>
      have hw8 : pyGetD result "projectVersionsUpdated" .none = w := by
        simp [pyGetD, hdg]
      have hwd : w = .dict event := by
        have : pyGetD result "projectVersionsUpdated" (.dict []) = w := by
          simp [pyGetD, hdg]
        rw [← this, hev]
      subst hwd
      by_cases htev : truthy (.dict event)
      · rcases hcond with ⟨h1, h2⟩ | hobj
        · simp [handleNotification8, hw8, htev, asDict, h1, h2, noQueryWrite,
            isQueryOrWrite]
        · by_cases hg : truthy (pyGetD event "version" .none) &&
              (eqStr (pyGetD event "type" .none) "CREATED" ||
               eqStr (pyGetD event "type" .none) "UPDATED")
          · cases hv : dictGet event "version" with
            | none =>
              have hfalse : truthy (pyGetD event "version" .none) = false := by
                simp [pyGetD, hv, truthy]
              rw [hfalse] at hg
              simp at hg
            | some w2 =>
              have hw2 : pyGetD event "version" .none = w2 := by simp [pyGetD, hv]
              have hw2d : pyGetD event "version" (.dict []) = w2 := by
                simp [pyGetD, hv]
              cases w2 with
              | dict version =>
                have hro := hobj version hw2d
                simp [handleNotification8, hw8, htev, asDict, hg, hw2, hro,
                  noQueryWrite, isQueryOrWrite]
                split <;> simp
              | none => rw [hw2] at hg; simp [truthy] at hg
              | bool b =>
                simp [handleNotification8, hw8, htev, asDict, hg, hw2,
                  noQueryWrite, isQueryOrWrite]
                split <;> simp
              | int n =>
                simp [handleNotification8, hw8, htev, asDict, hg, hw2,
                  noQueryWrite, isQueryOrWrite]
                split <;> simp
              | str s2 =>
                simp [handleNotification8, hw8, htev, asDict, hg, hw2,
                  noQueryWrite, isQueryOrWrite]
                split <;> simp
              | list xs =>
                simp [handleNotification8, hw8, htev, asDict, hg, hw2,
                  noQueryWrite, isQueryOrWrite]
                split <;> simp
              | base mb =>
                simp [handleNotification8, hw8, htev, asDict, hg, hw2,
                  noQueryWrite, isQueryOrWrite]
                split <;> simp
          · have hg2 : (truthy (pyGetD event "version" .none) &&
                (eqStr (pyGetD event "type" .none) "CREATED" ||
                 eqStr (pyGetD event "type" .none) "UPDATED")) = false := by
              simpa using hg
            simp [handleNotification8, hw8, htev, asDict, hg2, noQueryWrite,
              isQueryOrWrite]
      · have htev2 : truthy (.dict event) = false := by simpa using htev
        simp [handleNotification8, hw8, htev2, noQueryWrite, isQueryOrWrite]

/-- Witness for C1 at a concrete DELETED notification. -/
theorem C1_filter_blocks_fetch_witness :
    noQueryWrite (handleNotification7 (fun _ => .errored "boom") "20260101_120000"
      [("projectVersionsUpdated", .dict [("type", .str "DELETED"),
        ("version", .dict [("id", .str "v"),
          ("referencedObject", .str "o")])])]).1 = true ∧
    noQueryWrite (handleNotification8 (fun _ => .errored "boom") "20260101_120000"
      [("projectVersionsUpdated", .dict [("type", .str "DELETED"),
        ("version", .dict [("id", .str "v"),
          ("referencedObject", .str "o")])])]).1 = true :=
  C1_filter_blocks_fetch (fun _ => .errored "boom") (fun _ => .errored "boom")
    "20260101_120000"
    [("projectVersionsUpdated", .dict [("type", .str "DELETED"),
      ("version", .dict [("id", .str "v"), ("referencedObject", .str "o")])])]
    [("type", .str "DELETED"),
      ("version", .dict [("id", .str "v"), ("referencedObject", .str "o")])]
    rfl (Or.inl ⟨rfl, rfl⟩)

/-- C3: for a notification that passes the filter, any failure of the
snapshot fetch or backup write is caught and logged inside that
notification's handling: the loop body finishes without an escaping
exception, the subscription loop continues with the remaining
notifications, and when the remote query fails the failure is logged.
This holds for both listening workflows. -/
theorem C3_per_notification_failures_isolated
    (remote7 remote8 : Remote) (ts : String)
    (result event version : List (String × PyVal))
    (rest : List (List (String × PyVal)))
    (hpv : dictGet result "projectVersionsUpdated" = some (.dict event))
    (hv : dictGet event "version" = some (.dict version))
    (ht : (eqStr (pyGetD event "type" .none) "CREATED" ||
           eqStr (pyGetD event "type" .none) "UPDATED") = true)
    (hobj : truthy (pyGetD version "referencedObject" .none) = true) :
    ((handleNotification7 remote7 ts result).2 = Option.none ∧
     runLoop7 remote7 ts (result :: rest) =
       ((handleNotification7 remote7 ts result).1 ++ (runLoop7 remote7 ts rest).1,
        (runLoop7 remote7 ts rest).2) ∧
     ∀ e, remote7 (pyGetD version "referencedObject" .none) = .errored e →
       Action.print ("   ❌ Failed to download data: " ++ e) ∈
         (handleNotification7 remote7 ts result).1) ∧
    ((handleNotification8 remote8 ts result).2 = Option.none ∧
     runLoop8 remote8 ts (result :: rest) =
       ((handleNotification8 remote8 ts result).1 ++ (runLoop8 remote8 ts rest).1,
        (runLoop8 remote8 ts rest).2) ∧
     ∀ e, remote8 (pyGetD version "referencedObject" .none) = .errored e →
       Action.print ("   ❌ Download failed: " ++ e) ∈
         (handleNotification8 remote8 ts result).1) := by
  have htv : truthy (.dict version) = true := by
    cases version with
    | nil => simp [pyGetD, dictGet, truthy] at hobj
    | cons p t => rfl
  have htev : truthy (.dict event) = true := by
    cases event with
    | nil => simp [dictGet] at hv
    | cons p t => rfl
  have hev7 : pyGetD result "projectVersionsUpdated" (.dict []) = .dict event := by
    simp [pyGetD, hpv]
  have hev8 : pyGetD result "projectVersionsUpdated" .none = .dict event := by
    simp [pyGetD, hpv]
  have hvv7 : pyGetD event "version" (.dict []) = .dict version := by
    simp [pyGetD, hv]
  have hvv8 : pyGetD event "version" .none = .dict version := by
    simp [pyGetD, hv]
  refine ⟨⟨?_, ?_, ?_⟩, ⟨?_, ?_, ?_⟩⟩
  · simp [handleNotification7, hev7, hvv7, ht, htv, asDict, hobj]
  · cases hr : runLoop7 remote7 ts rest with
    | mk tr2 ex2 =>
      simp [runLoop7, handleNotification7, hev7, hvv7, ht, htv, asDict, hobj, hr]
  · intro e hre
    simp [handleNotification7, hev7, hvv7, ht, htv, asDict, hobj,
      fetch_and_save_data, fetchAndSaveBody7, hre]
  · simp [handleNotification8, hev8, hvv8, ht, htv, htev, asDict, hobj]
  · cases hr : runLoop8 remote8 ts rest with
    | mk tr2 ex2 =>
      simp [runLoop8, handleNotification8, hev8, hvv8, ht, htv, htev, asDict, hobj, hr]
  · intro e hre
    simp [handleNotification8, hev8, hvv8, ht, htv, htev, asDict, hobj,
      save_backup, saveBackupBody8, hre]

/-- Witness for C3 at a concrete CREATED notification whose fetch fails. -/
theorem C3_per_notification_failures_isolated_witness :
    ((handleNotification7 (fun _ => .errored "boom") "20260101_120000"
        [("projectVersionsUpdated", .dict [("type", .str "CREATED"),
          ("version", .dict [("id", .str "v"),
            ("referencedObject", .str "o")])])]).2 = Option.none ∧
     runLoop7 (fun _ => .errored "boom") "20260101_120000"
        ([("projectVersionsUpdated", .dict [("type", .str "CREATED"),
          ("version", .dict [("id", .str "v"),
            ("referencedObject", .str "o")])])] :: []) =
       ((handleNotification7 (fun _ => .errored "boom") "20260101_120000"
          [("projectVersionsUpdated", .dict [("type", .str "CREATED"),
            ("version", .dict [("id", .str "v"),
              ("referencedObject", .str "o")])])]).1 ++
        (runLoop7 (fun _ => .errored "boom") "20260101_120000" []).1,
        (runLoop7 (fun _ => .errored "boom") "20260101_120000" []).2) ∧
     ∀ e, (fun (_ : PyVal) => FetchResult.errored "boom")
          (pyGetD [("id", .str "v"), ("referencedObject", .str "o")]
            "referencedObject" .none) = .errored e →
       Action.print ("   ❌ Failed to download data: " ++ e) ∈
         (handleNotification7 (fun _ => .errored "boom") "20260101_120000"
          [("projectVersionsUpdated", .dict [("type", .str "CREATED"),
            ("version", .dict [("id", .str "v"),
              ("referencedObject", .str "o")])])]).1) ∧
    ((handleNotification8 (fun _ => .errored "boom") "20260101_120000"
        [("projectVersionsUpdated", .dict [("type", .str "CREATED"),
          ("version", .dict [("id", .str "v"),
            ("referencedObject", .str "o")])])]).2 = Option.none ∧
     runLoop8 (fun _ => .errored "boom") "20260101_120000"
        ([("projectVersionsUpdated", .dict [("type", .str "CREATED"),
          ("version", .dict [("id", .str "v"),
            ("referencedObject", .str "o")])])] :: []) =
       ((handleNotification8 (fun _ => .errored "boom") "20260101_120000"
          [("projectVersionsUpdated", .dict [("type", .str "CREATED"),
            ("version", .dict [("id", .str "v"),
              ("referencedObject", .str "o")])])]).1 ++
        (runLoop8 (fun _ => .errored "boom") "20260101_120000" []).1,
        (runLoop8 (fun _ => .errored "boom") "20260101_120000" []).2) ∧
     ∀ e, (fun (_ : PyVal) => FetchResult.errored "boom")
          (pyGetD [("id", .str "v"), ("referencedObject", .str "o")]
            "referencedObject" .none) = .errored e →
       Action.print ("   ❌ Download failed: " ++ e) ∈
         (handleNotification8 (fun _ => .errored "boom") "20260101_120000"
          [("projectVersionsUpdated", .dict [("type", .str "CREATED"),
            ("version", .dict [("id", .str "v"),
              ("referencedObject", .str "o")])])]).1) :=
  C3_per_notification_failures_isolated
    (fun _ => .errored "boom") (fun _ => .errored "boom") "20260101_120000"
    [("projectVersionsUpdated", .dict [("type", .str "CREATED"),
      ("version", .dict [("id", .str "v"), ("referencedObject", .str "o")])])]
    [("type", .str "CREATED"),
      ("version", .dict [("id", .str "v"), ("referencedObject", .str "o")])]
    [("id", .str "v"), ("referencedObject", .str "o")]
    [] rfl rfl rfl rfl

/-- C8 counterexample: `7autobackup.py` writes its timestamp under the
top-level key `backupTime`, which is not among the keys the claim
allows (projectId, objectId, versionId, message, backupTimestamp,
data). -/
theorem C8_counterexample :
    topKeys (backupOutput7 (.str "v1") (.str "o1") "20260101_120000"
      (.dict [("foo", .str "bar")])) =
      ["projectId", "versionId", "objectId", "backupTime", "data"] ∧
    "backupTime" ∉ specAllowedKeys :=
  ⟨rfl, by decide⟩

/-- C8 amended: every backup/export file written is a JSON object whose
top-level keys are drawn from projectId, objectId, versionId, message,
backupTime (the `7autobackup.py` spelling), backupTimestamp, and data,
with the data entry holding the raw fetched payload: the `7autobackup.py`
writer produces exactly projectId/versionId/objectId/backupTime/data,
the `8autobacknewversion.py` writer exactly
projectId/versionId/objectId/message/backupTimestamp/data, and the
export script exactly projectId/objectId/data. -/
theorem C8_amended_output_keys :
    (∀ (remote : Remote) (v o m : PyVal) (ts name : String) (content : PyVal),
      Action.writeFile name content ∈ fetch_and_save_data remote v o m ts →
      ∃ d result, remote o = .ok result ∧ dataExtract result = .ok d ∧
        content = backupOutput7 v o ts d ∧
        topKeys content = ["projectId", "versionId", "objectId", "backupTime", "data"]) ∧
    (∀ (remote : Remote) (pid : String) (o vi m : PyVal) (ts name : String)
        (content : PyVal),
      Action.writeFile name content ∈ save_backup remote pid o vi m ts →
      ∃ d result, remote o = .ok result ∧ dataExtract result = .ok d ∧
        content = backupOutput8 pid vi o m ts d ∧
        topKeys content =
          ["projectId", "versionId", "objectId", "message", "backupTimestamp", "data"]) ∧
    (∀ (remote : Remote) (name : String) (content : PyVal),
      Action.writeFile name content ∈ (main5 remote).1 →
      ∃ d result, remote (.str OBJECT_ID) = .ok result ∧ extract5 result = .ok d ∧
        content = exportOutput5 d ∧
        topKeys content = ["projectId", "objectId", "data"]) := by
  refine ⟨?_, ?_, ?_⟩
  · intro remote v o m ts name content hmem
    cases hro : remote o with
    | errored e => simp [fetch_and_save_data, fetchAndSaveBody7, hro] at hmem
    | ok result =>
      cases hde : dataExtract result with
      | error e => simp [fetch_and_save_data, fetchAndSaveBody7, hro, hde] at hmem
      | ok d =>
        by_cases htd : truthy d
        · cases m with
          | str ms =>
            simp [fetch_and_save_data, fetchAndSaveBody7, hro, hde, htd] at hmem
            exact ⟨d, result, rfl, hde, hmem.2, by rw [hmem.2]; rfl⟩
          | none => simp [fetch_and_save_data, fetchAndSaveBody7, hro, hde, htd] at hmem
          | bool b => simp [fetch_and_save_data, fetchAndSaveBody7, hro, hde, htd] at hmem
          | int n => simp [fetch_and_save_data, fetchAndSaveBody7, hro, hde, htd] at hmem
          | list xs => simp [fetch_and_save_data, fetchAndSaveBody7, hro, hde, htd] at hmem
          | dict kd => simp [fetch_and_save_data, fetchAndSaveBody7, hro, hde, htd] at hmem
          | base mb => simp [fetch_and_save_data, fetchAndSaveBody7, hro, hde, htd] at hmem
        · have htd2 : truthy d = false := by simpa using htd
          simp [fetch_and_save_data, fetchAndSaveBody7, hro, hde, htd2] at hmem
  · intro remote pid o vi m ts name content hmem
    cases hro : remote o with
    | errored e => simp [save_backup, saveBackupBody8, hro] at hmem
    | ok result =>
      cases hde : dataExtract result with
      | error e => simp [save_backup, saveBackupBody8, hro, hde] at hmem
      | ok d =>
        by_cases htd : truthy d
        · cases m with
          | str ms =>
            simp [save_backup, saveBackupBody8, hro, hde, htd] at hmem
            exact ⟨d, result, rfl, hde, hmem.2, by rw [hmem.2]; rfl⟩
          | none => simp [save_backup, saveBackupBody8, hro, hde, htd] at hmem
          | bool b => simp [save_backup, saveBackupBody8, hro, hde, htd] at hmem
          | int n => simp [save_backup, saveBackupBody8, hro, hde, htd] at hmem
          | list xs => simp [save_backup, saveBackupBody8, hro, hde, htd] at hmem
          | dict kd => simp [save_backup, saveBackupBody8, hro, hde, htd] at hmem
          | base mb => simp [save_backup, saveBackupBody8, hro, hde, htd] at hmem
        · have htd2 : truthy d = false := by simpa using htd
          simp [save_backup, saveBackupBody8, hro, hde, htd2] at hmem
  · intro remote name content hmem
    cases hro : remote (.str OBJECT_ID) with
    | errored e => simp [main5, hro] at hmem
    | ok result =>
      cases hx : extract5 result with
      | error e => simp [main5, hro, hx] at hmem
      | ok d =>
        simp [main5, hro, hx] at hmem
        exact ⟨d, result, rfl, hx, hmem.2, by rw [hmem.2]; rfl⟩

/-- Witness for the amended C8: a concrete export run writes a file with
exactly the keys projectId, objectId, data. -/
theorem C8_amended_output_keys_witness :
    ∃ d result,
      (fun (_ : PyVal) => FetchResult.ok
        [("project", .dict [("object", .dict [("data", .str "D")])])])
          (.str OBJECT_ID) = .ok result ∧
      extract5 result = .ok d ∧
      exportOutput5 (.str "D") = exportOutput5 d ∧
      topKeys (exportOutput5 (.str "D")) = ["projectId", "objectId", "data"] :=
  C8_amended_output_keys.2.2
    (fun _ => FetchResult.ok
      [("project", .dict [("object", .dict [("data", .str "D")])])])
    "object_data.json" (exportOutput5 (.str "D"))
    (by simp [main5, extract5, pySubscript, dictGet, bind, Except.bind])

end SpeckleScripts
